import Mathlib

/-!
Shallow embedding of `src/api/app.py` (excel-update-api): the
download → mutate → verify → upload pipeline, its two HTTP entry points,
the background worker and the diagnose endpoint.

External effects (Google Drive calls, the local filesystem, openpyxl)
are modelled by an `Env` record of outcomes for each external call and a
filesystem `Fs` given as the set of existing paths; each embedded
function returns its result together with the list of observable
transfer events and the updated filesystem.
-/

namespace ExcelApi

/-- Map of input fields to Excel cell references (`EXCEL_CELL_MAP`). -/
def EXCEL_CELL_MAP : List (String × String) :=
  [("projectName", "D29"), ("projectNumber", "D8"), ("branch", "D6")]

/-- `REQUEST_TIMEOUT = 30` (seconds), declared at module level. -/
def REQUEST_TIMEOUT : Nat := 30

/-- Minimum byte size accepted by `download_excel` (literal `5000`). -/
def download_min_size : Nat := 5000

/-- Minimum byte size accepted by `upload_excel` (literal `5000`). -/
def upload_min_size : Nat := 5000

/-- Python exception values raised by the embedded code. -/
inductive PyErr where
  | valueError (msg : String)
  | exception (msg : String)
  | httpError (msg : String)
  | timeoutError (msg : String)
deriving DecidableEq, Repr

/-- Observable external events: remote metadata requests, byte
transfers in either direction, and local workbook I/O. -/
inductive Ev where
  | metadataGet (fileId : String)
  | downloadBytes (fileId : String)
  | uploadBytes (fileId : String)
  | openWorkbook (path : String)
  | saveWorkbook (path : String)
deriving DecidableEq, Repr

/-- The filesystem as the list of existing paths (no duplicates are
ever created; removal drops every occurrence). -/
abbrev Fs := List String

/-- `open(path, 'wb')`: create the file (or truncate it) so it exists. -/
def Fs.create (fs : Fs) (p : String) : Fs :=
  if p ∈ fs then fs else p :: fs

/-- `if os.path.exists(p): os.remove(p)` — the guarded cleanup used on
every exit path; total, tolerates an already-missing file. -/
def Fs.cleanup (fs : Fs) (p : String) : Fs :=
  if p ∈ fs then fs.filter (fun q => q ≠ p) else fs

/-- Outcomes of the external calls made during one request, fixed up
front: each field says whether the corresponding call succeeds and what
the filesystem observations return. -/
structure Env where
  authOk : Bool
  metadataOk : Bool
  transferOk : Bool
  downloadedSize : Nat
  loadOk : Bool
  sheetPresent : Bool
  saveOk : Bool
  verifyLoadOk : Bool
  localSize : Nat
  uploadMetadataOk : Bool
  uploadTransferOk : Bool
  diagMetadataOk : Bool
deriving DecidableEq, Repr

/-- Result of an embedded fallible operation: the Python return value
or the escaping exception, the emitted events, the final filesystem. -/
structure Run (α : Type) where
  result : Except PyErr α
  events : List Ev
  fs : Fs
deriving Repr

/-- `download_excel(service, file_id, download_path)`: metadata
existence check (its failure raises `ValueError`), then the chunked
byte download into `download_path`, then the minimum-size check. -/
def download_excel (env : Env) (file_id download_path : String) (fs : Fs) : Run Bool :=
  if env.metadataOk = false then
    { result := .error (.valueError ("Unable to access file with ID " ++ file_id ++
        ". Make sure the file exists and is shared with the service account."))
      events := [.metadataGet file_id]
      fs := fs }
  else
    let fs1 := fs.create download_path
    if env.transferOk = false then
      { result := .error (.httpError "download transfer failed")
        events := [.metadataGet file_id, .downloadBytes file_id]
        fs := fs1 }
    else if env.downloadedSize < download_min_size then
      { result := .error (.valueError ("Downloaded file appears corrupt (too small): " ++
          toString env.downloadedSize ++ " bytes"))
        events := [.metadataGet file_id, .downloadBytes file_id]
        fs := fs1 }
    else
      { result := .ok true
        events := [.metadataGet file_id, .downloadBytes file_id]
        fs := fs1 }

/-- The `MutateError` raised when the required sheet is missing
(pre-write structural failure). -/
def missingSheetErr : PyErr :=
  .exception "Required sheet 'Project Setup Form' not found in the Excel file"

/-- The `MutateError` raised when the post-save verification re-open
fails (post-write corruption). -/
def verifyErr : PyErr :=
  .valueError "Excel file appears to be corrupted after save operation"

/-- `updates_count`: how many keys of `EXCEL_CELL_MAP` occur in the
input with a truthy (non-empty) value. -/
def updates_count (input_data : List (String × String)) : Nat :=
  (EXCEL_CELL_MAP.filter (fun p =>
    match input_data.lookup p.1 with
    | some v => v ≠ ""
    | none => false)).length

/-- `update_excel(path, input_data)`: load the workbook, require the
'Project Setup Form' sheet, return `False` when no mappable field is
present, otherwise write the cells, save, and re-open to verify. -/
def update_excel (env : Env) (path : String) (input_data : List (String × String)) : Run Bool :=
  if env.loadOk = false then
    { result := .error (.exception "failed to load workbook"), events := [.openWorkbook path], fs := [] }
  else if env.sheetPresent = false then
    { result := .error missingSheetErr, events := [.openWorkbook path], fs := [] }
  else if updates_count input_data = 0 then
    { result := .ok false, events := [.openWorkbook path], fs := [] }
  else if env.saveOk = false then
    { result := .error (.exception "failed to save workbook")
      events := [.openWorkbook path, .saveWorkbook path], fs := [] }
  else if env.verifyLoadOk = false then
    { result := .error verifyErr
      events := [.openWorkbook path, .saveWorkbook path, .openWorkbook path], fs := [] }
  else
    { result := .ok true
      events := [.openWorkbook path, .saveWorkbook path, .openWorkbook path], fs := [] }

/-- `upload_excel(service, file_id, path)`: remote metadata request
first, then the local size check, then the chunked byte upload. -/
def upload_excel (env : Env) (file_id path : String) : Run Bool :=
  if env.uploadMetadataOk = false then
    { result := .error (.httpError "upload metadata request failed")
      events := [.metadataGet file_id], fs := [] }
  else if env.localSize < upload_min_size then
    { result := .error (.valueError ("File appears too small to be a valid Excel file: " ++
        toString env.localSize ++ " bytes"))
      events := [.metadataGet file_id], fs := [] }
  else if env.uploadTransferOk = false then
    { result := .error (.httpError "upload transfer failed")
      events := [.metadataGet file_id, .uploadBytes file_id], fs := [] }
  else
    { result := .ok true
      events := [.metadataGet file_id, .uploadBytes file_id], fs := [] }

/-- Message carried by a Python exception value. -/
def PyErr.msg : PyErr → String
  | .valueError m => m
  | .exception m => m
  | .httpError m => m
  | .timeoutError m => m

/-- The HTTP payload `{status, message}` together with the status code. -/
structure HttpResponse where
  status : String
  message : String
  code : Nat
deriving DecidableEq, Repr

/-- Scratch path used by the main pipeline: `/tmp/{file_id}.xlsx`. -/
def temp_path (file_id : String) : String := "/tmp/" ++ file_id ++ ".xlsx"

/-- Scratch path used by the diagnose endpoint:
`/tmp/{file_id}_diagnostic.xlsx`. -/
def diag_temp_path (file_id : String) : String := "/tmp/" ++ file_id ++ "_diagnostic.xlsx"

/-- The body shared by `update_excel_api` and `process_excel_update`:
authenticate, download, update, upload when the update wrote something,
and delete the scratch file on the non-raising paths.  The `Bool`
result is `update_success`; a raised exception is the `.error` case,
whose handler in the caller still has to clean up. -/
def pipeline_body (env : Env) (file_id : String) (data : List (String × String))
    (temp_file : String) (fs : Fs) : Run Bool :=
  if env.authOk = false then
    { result := .error (.exception "authentication failed"), events := [], fs := fs }
  else
    let d := download_excel env file_id temp_file fs
    match d.result with
    | .error e => { result := .error e, events := d.events, fs := d.fs }
    | .ok _ =>
      let u := update_excel env temp_file data
      match u.result with
      | .error e => { result := .error e, events := d.events ++ u.events, fs := d.fs }
      | .ok update_success =>
        if update_success then
          let p := upload_excel env file_id temp_file
          match p.result with
          | .error e =>
            { result := .error e, events := d.events ++ u.events ++ p.events, fs := d.fs }
          | .ok _ =>
            { result := .ok true, events := d.events ++ u.events ++ p.events,
              fs := (d.fs).cleanup temp_file }
        else
          { result := .ok false, events := d.events ++ u.events,
            fs := (d.fs).cleanup temp_file }

/-- `update_excel_api` (`POST /update-excel`): validate the payload and
file ID, run the pipeline synchronously, map the outcome to an HTTP
response; the exception handler cleans up the scratch file and answers
500. -/
def update_excel_api (env : Env) (data : List (String × String)) (fs : Fs) :
    HttpResponse × List Ev × Fs :=
  if data.isEmpty then (⟨"error", "No data provided", 400⟩, [], fs)
  else
    match data.lookup "Current File ID" with
    | none => (⟨"error", "No file ID provided", 400⟩, [], fs)
    | some file_id =>
      if file_id = "" then (⟨"error", "No file ID provided", 400⟩, [], fs)
      else
        let temp_file := temp_path file_id
        let r := pipeline_body env file_id data temp_file fs
        match r.result with
        | .ok update_success =>
          (⟨"success",
            if update_success then "Excel file updated successfully" else "No updates were made",
            200⟩, r.events, r.fs)
        | .error e =>
          (⟨"error", e.msg, 500⟩, r.events, (r.fs).cleanup temp_file)

/-- Completed execution of the background worker: the error it logged
(if any — nothing escapes the thread), its events, the final
filesystem. -/
structure BgRun where
  loggedError : Option PyErr
  events : List Ev
  fs : Fs
deriving Repr

/-- `process_excel_update(file_id, data)`: the detached worker.  Runs
the same pipeline body; every exception is caught, logged, and followed
by the guarded scratch-file cleanup — nothing is returned to a caller. -/
def process_excel_update (env : Env) (file_id : String) (data : List (String × String))
    (fs : Fs) : BgRun :=
  let temp_file := temp_path file_id
  let r := pipeline_body env file_id data temp_file fs
  match r.result with
  | .ok _ => { loggedError := none, events := r.events, fs := r.fs }
  | .error e => { loggedError := some e, events := r.events, fs := (r.fs).cleanup temp_file }

/-- `root` (`POST /`): validate the parsed payload and file ID, spawn
`process_excel_update` on a thread, and immediately answer `accepted`.
The second component is the spawned task's arguments (`none` when
validation failed and nothing was spawned). -/
def root_post (data : List (String × String)) :
    HttpResponse × Option (String × List (String × String)) :=
  if data.isEmpty then (⟨"error", "No data provided", 400⟩, none)
  else
    match data.lookup "Current File ID" with
    | none => (⟨"error", "No file ID provided", 400⟩, none)
    | some file_id =>
      if file_id = "" then (⟨"error", "No file ID provided", 400⟩, none)
      else (⟨"accepted", "Request accepted for processing", 200⟩, some (file_id, data))

/-- `root` followed by the spawned worker run to completion: the HTTP
response is the first component, the background run the second. -/
def root_post_run (env : Env) (data : List (String × String)) (fs : Fs) :
    HttpResponse × BgRun :=
  match root_post data with
  | (resp, none) => (resp, { loggedError := none, events := [], fs := fs })
  | (resp, some (fid, d)) => (resp, process_excel_update env fid d fs)

/-- Response of the diagnose endpoint: the HTTP code and, when the body
reached the download step, the reported `download_success` flag. -/
structure DiagResponse where
  code : Nat
  download_success : Option Bool
deriving DecidableEq, Repr

/-- `diagnose_endpoint` (`GET /diagnose?file_id=...`): metadata lookup,
then `download_excel` into the `_diagnostic` scratch path inside an
inner try; on download success the diagnostics run and the scratch file
is deleted; on inner-caught download failure the 500 answer is returned
with no cleanup; an exception reaching the outer handler triggers the
guarded cleanup and a 500. -/
def diagnose_endpoint (env : Env) (file_id : Option String) (fs : Fs) :
    DiagResponse × List Ev × Fs :=
  match file_id with
  | none => (⟨400, none⟩, [], fs)
  | some fid =>
    if fid = "" then (⟨400, none⟩, [], fs)
    else
      let temp_file := diag_temp_path fid
      if env.authOk = false then
        (⟨500, none⟩, [], fs.cleanup temp_file)
      else if env.diagMetadataOk = false then
        (⟨500, none⟩, [.metadataGet fid], fs.cleanup temp_file)
      else
        let d := download_excel env fid temp_file fs
        match d.result with
        | .error _ => (⟨500, some false⟩, .metadataGet fid :: d.events, d.fs)
        | .ok _ => (⟨200, some true⟩, .metadataGet fid :: d.events, (d.fs).cleanup temp_file)

/-- `timeout_handler(signum, frame)` raises `TimeoutError("Request
timed out")` when invoked. -/
def timeout_handler : PyErr := .timeoutError "Request timed out"

/-- Signal handlers registered at module level, as pairs (signal,
handler name): the source defines `timeout_handler` and
`REQUEST_TIMEOUT` but never calls `signal.signal` or `signal.alarm`,
so the list is empty. -/
def signal_registrations : List (Nat × String) := []

/-! Helper lemmas about the filesystem model and the fs-independence of
results and events. -/

theorem not_mem_cleanup (fs : Fs) (p : String) : p ∉ Fs.cleanup fs p := by
  by_cases h : p ∈ fs
  · simp [Fs.cleanup, h, List.mem_filter]
  · simp [Fs.cleanup, h]

theorem mem_create (fs : Fs) (p : String) : p ∈ Fs.create fs p := by
  by_cases h : p ∈ fs
  · simp [Fs.create, h]
  · simp [Fs.create, h]

theorem download_excel_const (env : Env) (fid p : String) (fs fs' : Fs) :
    (download_excel env fid p fs).result = (download_excel env fid p fs').result ∧
    (download_excel env fid p fs).events = (download_excel env fid p fs').events := by
  by_cases h1 : env.metadataOk = false <;>
    by_cases h2 : env.transferOk = false <;>
      by_cases h3 : env.downloadedSize < download_min_size <;>
        simp [download_excel, h1, h2, h3]

theorem pipeline_body_const (env : Env) (fid : String) (data : List (String × String))
    (temp : String) (fs fs' : Fs) :
    (pipeline_body env fid data temp fs).result = (pipeline_body env fid data temp fs').result ∧
    (pipeline_body env fid data temp fs).events = (pipeline_body env fid data temp fs').events := by
  by_cases ha : env.authOk = false
  · simp [pipeline_body, ha]
  · obtain ⟨hr, he⟩ := download_excel_const env fid temp fs fs'
    cases hd : (download_excel env fid temp fs).result with
    | error e =>
      have hd' : (download_excel env fid temp fs').result = .error e := hr.symm.trans hd
      simp [pipeline_body, ha, hd, hd', he]
    | ok b =>
      have hd' : (download_excel env fid temp fs').result = .ok b := hr.symm.trans hd
      cases hu : (update_excel env temp data).result with
      | error e => simp [pipeline_body, ha, hd, hd', hu, he]
      | ok upd =>
        cases upd with
        | false => simp [pipeline_body, ha, hd, hd', hu, he]
        | true =>
          cases hp : (upload_excel env fid temp).result with
          | error e => simp [pipeline_body, ha, hd, hd', hu, hp, he]
          | ok r => simp [pipeline_body, ha, hd, hd', hu, hp, he]

theorem pipeline_body_ok_no_scratch (env : Env) (fid : String)
    (data : List (String × String)) (temp : String) (fs : Fs) (b : Bool)
    (h : (pipeline_body env fid data temp fs).result = .ok b) :
    temp ∉ (pipeline_body env fid data temp fs).fs := by
  by_cases ha : env.authOk = false
  · simp [pipeline_body, ha] at h
  · cases hd : (download_excel env fid temp fs).result with
    | error e => simp [pipeline_body, ha, hd] at h
    | ok bd =>
      cases hu : (update_excel env temp data).result with
      | error e => simp [pipeline_body, ha, hd, hu] at h
      | ok upd =>
        cases upd with
        | false => simp [pipeline_body, ha, hd, hu]; exact not_mem_cleanup _ _
        | true =>
          cases hp : (upload_excel env fid temp).result with
          | error e => simp [pipeline_body, ha, hd, hu, hp] at h
          | ok r => simp [pipeline_body, ha, hd, hu, hp]; exact not_mem_cleanup _ _

theorem update_excel_api_response_const (env : Env) (data : List (String × String))
    (fs fs' : Fs) :
    (update_excel_api env data fs).1 = (update_excel_api env data fs').1 := by
  by_cases hd : data.isEmpty
  · simp [update_excel_api, hd]
  · cases hl : data.lookup "Current File ID" with
    | none => simp [update_excel_api, hd, hl]
    | some fid =>
      by_cases hf : fid = ""
      · simp [update_excel_api, hd, hl, hf]
      · obtain ⟨hr, _⟩ := pipeline_body_const env fid data (temp_path fid) fs fs'
        cases h1 : (pipeline_body env fid data (temp_path fid) fs).result with
        | error e =>
          have h2 : (pipeline_body env fid data (temp_path fid) fs').result = .error e :=
            hr.symm.trans h1
          simp [update_excel_api, hd, hl, hf, h1, h2]
        | ok b =>
          have h2 : (pipeline_body env fid data (temp_path fid) fs').result = .ok b :=
            hr.symm.trans h1
          simp [update_excel_api, hd, hl, hf, h1, h2]

/-- Environment in which every external call succeeds and file sizes
pass the thresholds. -/
def envAllOk : Env :=
  { authOk := true, metadataOk := true, transferOk := true, downloadedSize := 6000,
    loadOk := true, sheetPresent := true, saveOk := true, verifyLoadOk := true,
    localSize := 6000, uploadMetadataOk := true, uploadTransferOk := true,
    diagMetadataOk := true }

/-- Environment where only the metadata existence pre-check fails. -/
def envMetaFail : Env := { envAllOk with metadataOk := false }

/-- Environment where the local file at upload time is tiny. -/
def envSmallLocal : Env := { envAllOk with localSize := 100 }

/-- Environment where the post-save verification re-open fails. -/
def envVerifyFail : Env := { envAllOk with verifyLoadOk := false }

/-- Environment where the byte download fails partway. -/
def envDownloadFail : Env := { envAllOk with transferOk := false }

/-- C1, counterexample: a request with a valid file ID and zero
recognized fields still performs the byte download — the outcome is the
no-op response, yet a transfer did occur, so the pipeline does not
short-circuit before fetch. -/
theorem noop_request_still_downloads :
    (update_excel_api envAllOk [("Current File ID", "abc")] []).1 =
      ⟨"success", "No updates were made", 200⟩ ∧
    Ev.downloadBytes "abc" ∈ (update_excel_api envAllOk [("Current File ID", "abc")] []).2.1 := by
  decide

/-- C1, amended: for every request whose mapping contains zero
recognized fields (or only empty-valued ones), the outcome is the no-op
response and no upload occurs and the scratch file is cleaned up, but
the download is performed before the no-op determination. -/
theorem noop_outcome_after_download (env : Env) (data : List (String × String)) (fs : Fs)
    (fid : String) (hne : data ≠ []) (hl : data.lookup "Current File ID" = some fid)
    (hfid : fid ≠ "") (hauth : env.authOk = true) (hmeta : env.metadataOk = true)
    (htr : env.transferOk = true) (hsize : download_min_size ≤ env.downloadedSize)
    (hload : env.loadOk = true) (hsheet : env.sheetPresent = true)
    (hzero : updates_count data = 0) :
    (update_excel_api env data fs).1 = ⟨"success", "No updates were made", 200⟩ ∧
    Ev.downloadBytes fid ∈ (update_excel_api env data fs).2.1 ∧
    (∀ f, Ev.uploadBytes f ∉ (update_excel_api env data fs).2.1) ∧
    temp_path fid ∉ (update_excel_api env data fs).2.2 := by
  have hsz : ¬ env.downloadedSize < download_min_size := not_lt.mpr hsize
  have hie : data.isEmpty = false := by simp [hne]
  have hdl : (download_excel env fid (temp_path fid) fs).result = .ok true := by
    simp [download_excel, hmeta, htr, hsz]
  have hup : (update_excel env (temp_path fid) data).result = .ok false := by
    simp [update_excel, hload, hsheet, hzero]
  refine ⟨?_, ?_, ?_, ?_⟩ <;>
    simp [update_excel_api, pipeline_body, hie, hl, hfid, hauth, hdl, hup,
      download_excel, update_excel, hmeta, htr, hsz, hload, hsheet, hzero,
      not_mem_cleanup]

/-- C1, witness for the amended theorem at a concrete no-op request. -/
theorem noop_outcome_after_download_witness :
    (update_excel_api envAllOk [("Current File ID", "abc"), ("projectName", "")] []).1 =
      ⟨"success", "No updates were made", 200⟩ :=
  (noop_outcome_after_download envAllOk [("Current File ID", "abc"), ("projectName", "")] []
    "abc" (by decide) (by decide) (by decide) rfl rfl rfl (by decide) rfl rfl
    (by decide)).1

/-- C3, counterexample: with every other call succeeding, a failed
metadata existence check alone makes `download_excel` raise — the fetch
aborts even though the byte transfer and the size check would have
succeeded, so the existence check is not non-fatal. -/
theorem metadata_check_failure_aborts_fetch :
    (∃ m, (download_excel envMetaFail "abc" "/tmp/abc.xlsx" []).result =
      .error (.valueError m)) ∧
    envMetaFail.transferOk = true ∧
    download_min_size ≤ envMetaFail.downloadedSize ∧
    Ev.downloadBytes "abc" ∉ (download_excel envMetaFail "abc" "/tmp/abc.xlsx" []).events := by
  exact ⟨⟨"Unable to access file with ID abc. Make sure the file exists and is shared with the service account.", rfl⟩, rfl, by decide, by decide⟩

/-- C3, amended: the metadata existence check is fatal on failure — the
fetch aborts with a `ValueError` before any byte transfer; when the
check, the transfer and the size check all succeed the fetch succeeds. -/
theorem fetch_metadata_check_fatal (env : Env) (fid p : String) (fs : Fs) :
    (env.metadataOk = false →
      (∃ m, (download_excel env fid p fs).result = .error (.valueError m)) ∧
      (download_excel env fid p fs).events = [.metadataGet fid] ∧
      (download_excel env fid p fs).fs = fs) ∧
    (env.metadataOk = true → env.transferOk = true →
      download_min_size ≤ env.downloadedSize →
      (download_excel env fid p fs).result = .ok true) := by
  constructor
  · intro h
    simp [download_excel, h]
  · intro h1 h2 h3
    simp [download_excel, h1, h2, not_lt.mpr h3]

/-- C3, witness for the amended theorem. -/
theorem fetch_metadata_check_fatal_witness :
    (download_excel envMetaFail "abc" "/tmp/abc.xlsx" []).events = [.metadataGet "abc"] :=
  ((fetch_metadata_check_fatal envMetaFail "abc" "/tmp/abc.xlsx" []).1 rfl).2.1

/-- C5: both sides use the same minimum-size threshold; a downloaded
file below it makes the fetch fail after the byte download, and a local
file below it makes the publish fail with no upload transfer. -/
theorem size_threshold_both_sides (env : Env) (fid p : String) (fs : Fs) :
    download_min_size = upload_min_size ∧
    (env.metadataOk = true → env.transferOk = true →
      env.downloadedSize < download_min_size →
      (∃ m, (download_excel env fid p fs).result = .error (.valueError m)) ∧
      Ev.downloadBytes fid ∈ (download_excel env fid p fs).events) ∧
    (env.uploadMetadataOk = true → env.localSize < upload_min_size →
      (∃ m, (upload_excel env fid p).result = .error (.valueError m)) ∧
      Ev.uploadBytes fid ∉ (upload_excel env fid p).events) := by
  refine ⟨rfl, ?_, ?_⟩
  · intro h1 h2 h3
    simp [download_excel, h1, h2, h3]
  · intro h1 h2
    simp [upload_excel, h1, h2]

/-- C5, witness at a small downloaded file and a small local file. -/
theorem size_threshold_both_sides_witness :
    Ev.downloadBytes "abc" ∈
      (download_excel { envAllOk with downloadedSize := 10 } "abc" "/tmp/abc.xlsx" []).events ∧
    Ev.uploadBytes "abc" ∉ (upload_excel envSmallLocal "abc" "/tmp/abc.xlsx").events :=
  ⟨((size_threshold_both_sides { envAllOk with downloadedSize := 10 } "abc" "/tmp/abc.xlsx"
      []).2.1 rfl rfl (by decide)).2,
   ((size_threshold_both_sides envSmallLocal "abc" "/tmp/abc.xlsx" []).2.2 rfl
      (by decide)).2⟩

/-- C6, counterexample: with a local file below the threshold, the
publish fails, yet a remote metadata request was made — the size check
does not fail fast before every network call. -/
theorem publish_size_check_after_metadata_call :
    (∃ m, (upload_excel envSmallLocal "abc" "/tmp/abc.xlsx").result =
      .error (.valueError m)) ∧
    Ev.metadataGet "abc" ∈ (upload_excel envSmallLocal "abc" "/tmp/abc.xlsx").events := by
  exact ⟨⟨"File appears too small to be a valid Excel file: 100 bytes", rfl⟩, by decide⟩

/-- C6, amended: when the local file is below the threshold the publish
fails before the byte transfer — no upload transfer occurs — but only
after the remote metadata request has already been made. -/
theorem publish_size_failfast_before_transfer (env : Env) (fid p : String)
    (h1 : env.uploadMetadataOk = true) (h2 : env.localSize < upload_min_size) :
    (∃ m, (upload_excel env fid p).result = .error (.valueError m)) ∧
    (upload_excel env fid p).events = [.metadataGet fid] ∧
    Ev.uploadBytes fid ∉ (upload_excel env fid p).events := by
  refine ⟨?_, ?_, ?_⟩ <;> simp [upload_excel, h1, h2]

/-- C6, witness for the amended theorem. -/
theorem publish_size_failfast_before_transfer_witness :
    (upload_excel envSmallLocal "abc" "/tmp/abc.xlsx").events = [.metadataGet "abc"] :=
  (publish_size_failfast_before_transfer envSmallLocal "abc" "/tmp/abc.xlsx" rfl
    (by decide)).2.1

/-- C2: for every run of the synchronous pipeline or the background
worker on a valid file ID — whatever stage succeeds or fails — cleanup
leaves no scratch file for that identifier, and the returned outcome is
the same whatever the initial filesystem (in particular whether the
scratch file was present or already gone when cleanup ran: the guarded
delete never escalates). -/
theorem scratch_cleanup_invariant (env : Env) (data : List (String × String)) (fs fs' : Fs)
    (fid : String) (hne : data ≠ []) (hl : data.lookup "Current File ID" = some fid)
    (hfid : fid ≠ "") :
    temp_path fid ∉ (update_excel_api env data fs).2.2 ∧
    temp_path fid ∉ (process_excel_update env fid data fs).fs ∧
    (update_excel_api env data fs).1 = (update_excel_api env data fs').1 := by
  have hie : data.isEmpty = false := by simp [hne]
  refine ⟨?_, ?_, update_excel_api_response_const env data fs fs'⟩
  · cases h : (pipeline_body env fid data (temp_path fid) fs).result with
    | error e =>
      simp [update_excel_api, hie, hl, hfid, h]
      exact not_mem_cleanup _ _
    | ok b =>
      simp [update_excel_api, hie, hl, hfid, h]
      exact pipeline_body_ok_no_scratch env fid data (temp_path fid) fs b h
  · cases h : (pipeline_body env fid data (temp_path fid) fs).result with
    | error e =>
      simp [process_excel_update, h]
      exact not_mem_cleanup _ _
    | ok b =>
      simp [process_excel_update, h]
      exact pipeline_body_ok_no_scratch env fid data (temp_path fid) fs b h

/-- C2, witness: a failing run started with a stale scratch file still
ends with no scratch file for the identifier. -/
theorem scratch_cleanup_invariant_witness :
    temp_path "abc" ∉
      (update_excel_api envVerifyFail [("Current File ID", "abc"), ("projectName", "x")]
        [temp_path "abc"]).2.2 :=
  (scratch_cleanup_invariant envVerifyFail [("Current File ID", "abc"), ("projectName", "x")]
    [temp_path "abc"] [] "abc" (by decide) (by decide) (by decide)).1

/-- C4: when the save succeeds but the verification re-open fails, the
mutator raises the post-write corruption error — distinct from the
pre-write missing-sheet error — and the run answers 500 with no upload
transfer ever attempted. -/
theorem verify_reopen_failure_blocks_publish (env : Env) (data : List (String × String))
    (fs : Fs) (fid : String) (hne : data ≠ []) (hl : data.lookup "Current File ID" = some fid)
    (hfid : fid ≠ "") (hauth : env.authOk = true) (hmeta : env.metadataOk = true)
    (htr : env.transferOk = true) (hsize : download_min_size ≤ env.downloadedSize)
    (hload : env.loadOk = true) (hsheet : env.sheetPresent = true)
    (hpos : updates_count data ≠ 0) (hsave : env.saveOk = true)
    (hver : env.verifyLoadOk = false) :
    (update_excel env (temp_path fid) data).result = .error verifyErr ∧
    verifyErr ≠ missingSheetErr ∧
    (update_excel_api env data fs).1 = ⟨"error", verifyErr.msg, 500⟩ ∧
    (∀ f, Ev.uploadBytes f ∉ (update_excel_api env data fs).2.1) := by
  have hsz : ¬ env.downloadedSize < download_min_size := not_lt.mpr hsize
  have hie : data.isEmpty = false := by simp [hne]
  have hdl : (download_excel env fid (temp_path fid) fs).result = .ok true := by
    simp [download_excel, hmeta, htr, hsz]
  have hup : (update_excel env (temp_path fid) data).result = .error verifyErr := by
    simp [update_excel, hload, hsheet, hpos, hsave, hver]
  refine ⟨hup, by decide, ?_, ?_⟩ <;>
    simp [update_excel_api, pipeline_body, hie, hl, hfid, hauth, hdl, hup,
      download_excel, update_excel, hmeta, htr, hsz, hload, hsheet, hpos, hsave, hver]

/-- C4, witness at a concrete request whose save verification fails. -/
theorem verify_reopen_failure_blocks_publish_witness :
    (update_excel_api envVerifyFail [("Current File ID", "abc"), ("projectName", "Tower One")]
      []).1 = ⟨"error", verifyErr.msg, 500⟩ :=
  (verify_reopen_failure_blocks_publish envVerifyFail
    [("Current File ID", "abc"), ("projectName", "Tower One")] [] "abc"
    (by decide) (by decide) (by decide) rfl rfl rfl (by decide) rfl rfl (by decide) rfl
    rfl).2.2.1

/-- C7: an empty payload or a missing/empty file ID makes both the
synchronous endpoint and the webhook endpoint answer a client-input
error with HTTP 400, with no events, an unchanged filesystem, and no
background task spawned. -/
theorem input_validation_no_file_ops (env : Env) (data : List (String × String)) (fs : Fs) :
    (data = [] →
      update_excel_api env data fs = (⟨"error", "No data provided", 400⟩, [], fs) ∧
      root_post data = (⟨"error", "No data provided", 400⟩, none)) ∧
    (data ≠ [] →
      (data.lookup "Current File ID" = none ∨ data.lookup "Current File ID" = some "") →
      update_excel_api env data fs = (⟨"error", "No file ID provided", 400⟩, [], fs) ∧
      root_post data = (⟨"error", "No file ID provided", 400⟩, none)) := by
  constructor
  · intro h
    subst h
    exact ⟨rfl, rfl⟩
  · intro hne hl
    have hie : data.isEmpty = false := by simp [hne]
    rcases hl with h | h <;>
      exact ⟨by simp [update_excel_api, hie, h], by simp [root_post, hie, h]⟩

/-- C7, witness at a request whose file ID is the empty string. -/
theorem input_validation_no_file_ops_witness :
    update_excel_api envAllOk [("Current File ID", "")] [] =
      (⟨"error", "No file ID provided", 400⟩, [], []) :=
  ((input_validation_no_file_ops envAllOk [("Current File ID", "")] []).2 (by decide)
    (Or.inr (by decide))).1

theorem update_excel_api_response_cases (env : Env) (data : List (String × String))
    (fs : Fs) :
    (update_excel_api env data fs).1 = ⟨"error", "No data provided", 400⟩ ∨
    (update_excel_api env data fs).1 = ⟨"error", "No file ID provided", 400⟩ ∨
    (∃ m, (update_excel_api env data fs).1 = ⟨"success", m, 200⟩) ∨
    (∃ m, (update_excel_api env data fs).1 = ⟨"error", m, 500⟩) := by
  by_cases hd : data.isEmpty = true
  · left
    simp [update_excel_api, hd]
  · cases hl : data.lookup "Current File ID" with
    | none =>
      right; left
      simp [update_excel_api, hd, hl]
    | some fid =>
      by_cases hf : fid = ""
      · right; left
        simp [update_excel_api, hd, hl, hf]
      · cases h : (pipeline_body env fid data (temp_path fid) fs).result with
        | ok b =>
          right; right; left
          exact ⟨if b then "Excel file updated successfully" else "No updates were made",
            by simp [update_excel_api, hd, hl, hf, h]⟩
        | error e =>
          right; right; right
          exact ⟨e.msg, by simp [update_excel_api, hd, hl, hf, h]⟩

theorem root_post_run_resp (env : Env) (data : List (String × String)) (fs : Fs) :
    (root_post_run env data fs).1 = (root_post data).1 := by
  rcases h : root_post data with ⟨resp, task⟩
  cases task <;> simp [root_post_run, h]

theorem root_post_code_cases (data : List (String × String)) :
    (root_post data).1.code = 200 ∨ (root_post data).1.code = 400 := by
  by_cases hd : data.isEmpty = true
  · simp [root_post, hd]
  · cases hl : data.lookup "Current File ID" with
    | none => simp [root_post, hd, hl]
    | some fid =>
      by_cases hf : fid = ""
      · simp [root_post, hd, hl, hf]
      · simp [root_post, hd, hl, hf]

theorem diagnose_code_cases (env : Env) (fid : Option String) (fs : Fs) :
    (diagnose_endpoint env fid fs).1.code = 200 ∨ (diagnose_endpoint env fid fs).1.code = 400 ∨
    (diagnose_endpoint env fid fs).1.code = 500 := by
  cases fid with
  | none => simp [diagnose_endpoint]
  | some f =>
    by_cases hf : f = ""
    · simp [diagnose_endpoint, hf]
    · by_cases ha : env.authOk = false
      · simp [diagnose_endpoint, hf, ha]
      · by_cases hm : env.diagMetadataOk = false
        · simp [diagnose_endpoint, hf, ha, hm]
        · cases h : (download_excel env f (diag_temp_path f) fs).result <;>
            simp [diagnose_endpoint, hf, ha, hm, h]

/-- C8: the source defines `timeout_handler` and `REQUEST_TIMEOUT = 30`
but never registers the handler (`signal.signal`/`signal.alarm` are
never called), so no blocking operation is time-bounded, and no
endpoint can ever answer with HTTP 504 or a `TimeoutError`. -/
theorem no_timeout_handling_wired (env : Env) (data : List (String × String)) (fs : Fs)
    (fid : Option String) :
    signal_registrations = [] ∧
    REQUEST_TIMEOUT = 30 ∧
    timeout_handler = .timeoutError "Request timed out" ∧
    (update_excel_api env data fs).1.code ≠ 504 ∧
    (root_post_run env data fs).1.code ≠ 504 ∧
    (diagnose_endpoint env fid fs).1.code ≠ 504 := by
  refine ⟨rfl, rfl, rfl, ?_, ?_, ?_⟩
  · rcases update_excel_api_response_cases env data fs with h | h | ⟨m, h⟩ | ⟨m, h⟩ <;>
      simp [h]
  · rw [root_post_run_resp]
    rcases root_post_code_cases data with h | h <;> omega
  · rcases diagnose_code_cases env fid fs with h | h | h <;> omega

/-- C9: a POST to the root endpoint with a non-empty payload and a
truthy file ID is answered `accepted`/200 for every environment — the
spawned background run's outcome, including any logged failure, never
reaches the HTTP response — and the synchronous endpoint is the one
whose response carries the success/error outcome. -/
theorem async_accept_decoupled_from_outcome (env : Env) (data : List (String × String))
    (fs : Fs) (fid : String) (hne : data ≠ []) (hl : data.lookup "Current File ID" = some fid)
    (hfid : fid ≠ "") :
    (root_post_run env data fs).1 = ⟨"accepted", "Request accepted for processing", 200⟩ ∧
    (root_post data).2 = some (fid, data) ∧
    (root_post_run env data fs).2 = process_excel_update env fid data fs ∧
    ((update_excel_api env data fs).1.status = "success" ∨
      (update_excel_api env data fs).1.status = "error") := by
  have hie : data.isEmpty = false := by simp [hne]
  have hroot : root_post data =
      (⟨"accepted", "Request accepted for processing", 200⟩, some (fid, data)) := by
    simp [root_post, hie, hl, hfid]
  refine ⟨?_, ?_, ?_, ?_⟩
  · simp [root_post_run, hroot]
  · simp [hroot]
  · simp [root_post_run, hroot]
  · rcases update_excel_api_response_cases env data fs with h | h | ⟨m, h⟩ | ⟨m, h⟩ <;>
      simp [h]

/-- C9, witness: a concrete request whose background run fails is still
answered `accepted`/200. -/
theorem async_accept_decoupled_from_outcome_witness :
    (root_post_run envVerifyFail [("Current File ID", "abc"), ("projectName", "x")] []).1 =
      ⟨"accepted", "Request accepted for processing", 200⟩ :=
  (async_accept_decoupled_from_outcome envVerifyFail
    [("Current File ID", "abc"), ("projectName", "x")] [] "abc"
    (by decide) (by decide) (by decide)).1

/-- C10: the diagnose endpoint's scratch path differs from the main
pipeline's scratch path for the same identifier; its scratch file is
removed on the successful-download path and when an exception reaches
the outer handler, but an inner-caught download failure returns the 500
response without deleting anything — when the transfer had started, the
partially written diagnostic file remains on disk. -/
theorem diagnose_scratch_lifecycle (env : Env) (fid : String) (fs : Fs) (hfid : fid ≠ "") :
    diag_temp_path fid ≠ temp_path fid ∧
    (env.authOk = false ∨ env.diagMetadataOk = false →
      (diagnose_endpoint env (some fid) fs).1.code = 500 ∧
      diag_temp_path fid ∉ (diagnose_endpoint env (some fid) fs).2.2) ∧
    (env.authOk = true → env.diagMetadataOk = true →
      ∀ b, (download_excel env fid (diag_temp_path fid) fs).result = .ok b →
        (diagnose_endpoint env (some fid) fs).1.code = 200 ∧
        diag_temp_path fid ∉ (diagnose_endpoint env (some fid) fs).2.2) ∧
    (env.authOk = true → env.diagMetadataOk = true →
      ∀ e, (download_excel env fid (diag_temp_path fid) fs).result = .error e →
        (diagnose_endpoint env (some fid) fs).1 = ⟨500, some false⟩ ∧
        (diagnose_endpoint env (some fid) fs).2.2 =
          (download_excel env fid (diag_temp_path fid) fs).fs) ∧
    (env.authOk = true → env.diagMetadataOk = true → env.metadataOk = true →
      env.transferOk = false →
      diag_temp_path fid ∈ (diagnose_endpoint env (some fid) fs).2.2) := by
  refine ⟨?_, ?_, ?_, ?_, ?_⟩
  · intro h
    have hlen := congrArg String.length h
    have h1 : ("_diagnostic.xlsx" : String).length = 16 := rfl
    have h2 : (".xlsx" : String).length = 5 := rfl
    simp [diag_temp_path, temp_path, String.length_append, h1, h2] at hlen
  · rintro (h | h) <;> by_cases ha : env.authOk = false <;>
      constructor <;> simp [diagnose_endpoint, hfid, h, ha, not_mem_cleanup]
  · intro ha hm b hdl
    constructor <;> simp [diagnose_endpoint, hfid, ha, hm, hdl, not_mem_cleanup]
  · intro ha hm e hdl
    constructor <;> simp [diagnose_endpoint, hfid, ha, hm, hdl]
  · intro ha hm hmeta htr
    have hdl : (download_excel env fid (diag_temp_path fid) fs).result =
        .error (.httpError "download transfer failed") := by
      simp [download_excel, hmeta, htr]
    have hfs : (download_excel env fid (diag_temp_path fid) fs).fs =
        Fs.create fs (diag_temp_path fid) := by
      simp [download_excel, hmeta, htr]
    simp [diagnose_endpoint, hfid, ha, hm, hdl, hfs, mem_create]

/-- C10, witness: a concrete inner-caught download failure leaves the
diagnostic scratch file on disk behind a 500 response. -/
theorem diagnose_scratch_lifecycle_witness :
    diag_temp_path "abc" ∈ (diagnose_endpoint envDownloadFail (some "abc") []).2.2 :=
  (diagnose_scratch_lifecycle envDownloadFail "abc" [] (by decide)).2.2.2.2 rfl rfl rfl rfl

end ExcelApi
